import Mathlib

/-!
Shallow embedding of the Scene/Chapter synchronization engine of
`src/app.py` (a Flask reading platform), together with proofs of the
spec's testable properties.

Conventions. Python strings become `String`; `str.split(sep)` becomes
a structurally recursive splitter over the character list that, like
Python's `split`, keeps empty pieces and cuts at leftmost
non-overlapping occurrences of the separator; database rows become
structures; a
`RealDictCursor` row, where the code accesses columns by name and a
missing column raises `KeyError`, becomes an association list of column
name to value, so a missing key is an observable `none`; fallible
operations return `Option`; the mutable `writing.files` registry table
is threaded explicitly as a list of rows in insertion order.
-/

namespace App

/-! ### Segmenter (`read_scene`, step 4)

The code runs `paragraphs = scene_data['raw_text'].split('\n\n')` and
then enumerates the pieces, giving piece `i` (0-based) the identifier
`f'p-{scene_id}-{i + 1}'`.  Note that Python `split` keeps empty
pieces, and `''.split('\n\n') == ['']`. -/

/-- Python `str.split('\n\n')` over a character list, with an
accumulator for the piece being built (kept reversed): scan left to
right; at the leftmost occurrence of two consecutive newlines cut a
piece and continue after the separator; at the end emit the pending
piece.  Like Python's `split`, it keeps empty pieces and always returns
at least one piece (`''.split('\n\n') == ['']`). -/
def splitBlankAux : List Char → List Char → List (List Char)
  | [], acc => [acc.reverse]
  | '\n' :: '\n' :: rest, acc => acc.reverse :: splitBlankAux rest []
  | c :: rest, acc => splitBlankAux rest (c :: acc)

/-- Model of `scene_data['raw_text'].split('\n\n')` from `read_scene`. -/
def splitParagraphs (rawText : String) : List String :=
  (splitBlankAux rawText.data []).map (fun cs => String.mk cs)

/-- The unique trigger id `f'p-{scene_id}-{i + 1}'` given the 0-based
paragraph index `i`. -/
def unitId (sceneId : Nat) (i : Nat) : String :=
  "p-" ++ toString sceneId ++ "-" ++ toString (i + 1)

/-- The segmented scene: each paragraph paired with its identifier, in
order, exactly as the enumeration loop of `read_scene` visits them. -/
def segment (sceneId : Nat) (rawText : String) : List (String × String) :=
  (splitParagraphs rawText).enum.map (fun ip => (unitId sceneId ip.1, ip.2))

/-- The ordered sequence of unit identifiers a segmentation pass
produces. -/
def unitIds (sceneId : Nat) (rawText : String) : List String :=
  (segment sceneId rawText).map Prod.fst

/-! ### Trigger resolver (`read_scene`, steps 3-4) -/

/-- One row of the `LEFT JOIN writing.media_sync` part of the unified
query, after the `text_trigger_id IS NOT NULL` filter that builds
`raw_triggers`: columns `ms.text_trigger_id`, `ms.media_type`,
`ms.media_file_path` (the path may be SQL NULL). -/
structure TriggerRow where
  text_trigger_id : String
  media_type : String
  media_file_path : Option String
deriving Repr, DecidableEq

/-- An element of the in-memory `media_triggers` list built by
`read_scene`. -/
structure MediaTrigger where
  trigger_id : String
  media_path : String
deriving Repr, DecidableEq

/-- Model of `url_for('secure_media_proxy', scene_id=scene_id, filename=filename)`:
the route is `/media/<int:scene_id>/<path:filename>`. -/
def mediaPath (sceneId : Nat) (filename : String) : String :=
  "/media/" ++ toString sceneId ++ "/" ++ filename

/-- Python `str.split('/')` over a character list, same scheme as
`splitBlankAux` with the one-character separator `/`. -/
def splitSlashAux : List Char → List Char → List (List Char)
  | [], acc => [acc.reverse]
  | '/' :: rest, acc => acc.reverse :: splitSlashAux rest []
  | c :: rest, acc => splitSlashAux rest (c :: acc)

/-- Model of `row['media_file_path'].split('/')[-1]`: Python `split` never
returns an empty list, so `[-1]` is the last piece. -/
def basename (p : String) : String :=
  ((splitSlashAux p.data []).map (fun cs => String.mk cs)).getLastD ""

/-- Body of the trigger-mapping loop of `read_scene`: a row is kept
when `row['media_type'] == 'image'` and `row.get('media_file_path')`
is truthy (present and non-empty); the kept entry records the proxy
URL of the path's basename. -/
def rowTrigger (sceneId : Nat) (row : TriggerRow) : Option MediaTrigger :=
  match row.media_file_path with
  | some p =>
    if row.media_type = "image" ∧ p ≠ "" then
      some ⟨row.text_trigger_id, mediaPath sceneId (basename p)⟩
    else none
  | none => none

/-- The `media_triggers` list of `read_scene`: the kept rows in their
stored order. -/
def buildMediaTriggers (sceneId : Nat) (rows : List TriggerRow) : List MediaTrigger :=
  rows.filterMap (rowTrigger sceneId)

/-- Model of `next((t for t in media_triggers if t['trigger_id'] == unique_trigger_id), None)`:
the first matching trigger in list order, if any. -/
def resolveUnit (triggers : List MediaTrigger) (uid : String) : Option MediaTrigger :=
  triggers.find? (fun t => t.trigger_id = uid)

/-- The annotated document: every segmented unit, in order, with its
identifier, text and the optional media URL the paragraph loop of
`read_scene` attaches (`data-image-url`). -/
def annotate (sceneId : Nat) (rawText : String) (triggers : List MediaTrigger) :
    List (String × String × Option String) :=
  (segment sceneId rawText).map
    (fun up => (up.1, up.2, (resolveUnit triggers up.1).map MediaTrigger.media_path))

/-- The blank placeholder `read_scene` uses when `media_triggers` is
empty. -/
def placeholderImage : String :=
  "data:image/gif;base64,R0lGODlhAQABAIAAAAAAAP///yH5BAEAAAAALAAAAAABAAEAAAIBRAA7"

/-- Model of `default_image = media_triggers[0]['media_path'] if media_triggers
else <placeholder>` from `read_scene`. -/
def defaultImage (triggers : List MediaTrigger) : String :=
  match triggers with
  | [] => placeholderImage
  | t :: _ => t.media_path

/-- The data `read_scene` hands to the rendered page: the annotated
unit list and the initial image source. -/
structure SceneView where
  units : List (String × String × Option String)
  default_image : String
deriving Repr, DecidableEq

/-- Steps 3-5 of `read_scene` after the database rows are in hand:
build `media_triggers`, annotate every paragraph, pick the default
image. -/
def readSceneView (sceneId : Nat) (rawText : String) (rows : List TriggerRow) : SceneView :=
  ⟨annotate sceneId rawText (buildMediaTriggers sceneId rows),
   defaultImage (buildMediaTriggers sceneId rows)⟩

/-! ### Media locator and registration (`get_or_register_file_id`)

The registry table `writing.files` (unique key `file_name`) is modelled
as a list of rows in insertion order; the pCloud backend is modelled as
a function from a folder path to that folder's listing. -/

/-- A row of `writing.files`.  `pcloud_file_id` is a nullable VARCHAR
column. -/
structure FileRow where
  file_name : String
  pcloud_file_id : Option String
  file_type : String
deriving Repr, DecidableEq

/-- One entry of the `contents` array returned by
`pcloud_client.listfolder`. -/
structure PCloudItem where
  name : String
  fileid : Nat
deriving Repr, DecidableEq

/-- Model of `SELECT pcloud_file_id FROM writing.files WHERE file_name = %s` +
`fetchone()`: the first row with the given name, if any. -/
def lookupFile (reg : List FileRow) (name : String) : Option FileRow :=
  reg.find? (fun r => r.file_name = name)

/-- The truthiness test `if file_record and file_record.get('pcloud_file_id'):`
— usable only when a row exists and its id is present and non-empty
(Python treats `None` and `''` as falsy). -/
def usableId (record : Option FileRow) : Option String :=
  match record with
  | none => none
  | some r =>
    match r.pcloud_file_id with
    | none => none
    | some id => if id = "" then none else some id

/-- Model of `media_folder = 'images' if media_type == 'image' else 'audio'`. -/
def media_folder (media_type : String) : String :=
  if media_type = "image" then "images" else "audio"

/-- The f-string at the heart of the locator:
`/my_private_stories/media/series/{series_slug}/{book_slug}/scenes/{media_folder}/{file_name}`. -/
def pcloud_path (series_slug book_slug media_type file_name : String) : String :=
  "/my_private_stories/media/series/" ++ series_slug ++ "/" ++ book_slug ++
    "/scenes/" ++ media_folder media_type ++ "/" ++ file_name

/-- Model of `posixpath.dirname`: the part of the path before its last `/`
(keeping a leading run of slashes intact, per CPython's
implementation). -/
def posixDirname (p : String) : String :=
  let head := (p.data.reverse.dropWhile (fun c => c ≠ '/')).reverse
  if head ≠ [] ∧ head.any (fun c => c ≠ '/') then
    String.mk ((head.reverse.dropWhile (fun c => c = '/')).reverse)
  else String.mk head

/-- Model of `INSERT INTO writing.files ... ON CONFLICT (file_name) DO UPDATE
SET pcloud_file_id = EXCLUDED.pcloud_file_id`: update the row holding
the unique `file_name` key in place, or append a fresh row. -/
def upsertFile : List FileRow → String → String → String → List FileRow
  | [], name, id, ftype => [⟨name, some id, ftype⟩]
  | r :: rs, name, id, ftype =>
    if r.file_name = name then ⟨r.file_name, some id, r.file_type⟩ :: rs
    else r :: upsertFile rs name id ftype

/-- Model of `get_or_register_file_id(scene_id, file_name, book_slug,
series_slug, media_type)`: consult the registry; on a miss, list the
pCloud folder of the computed path, take the first entry named
`file_name` (its id must be truthy — Python `if not file_id` treats
`0` as missing), upsert the stringified id into the registry and
return it.  Returns the reference (or `none`) together with the
registry state after the call; every failure path returns before the
`INSERT`, and the catch-all `except` rolls the transaction back, so on
failure the registry is returned unchanged. -/
def get_or_register_file_id (backend : String → List PCloudItem)
    (reg : List FileRow) (file_name book_slug series_slug media_type : String) :
    Option String × List FileRow :=
  match usableId (lookupFile reg file_name) with
  | some id => (some id, reg)
  | none =>
    let path := pcloud_path series_slug book_slug media_type file_name
    let contents := backend (posixDirname path)
    match contents.find? (fun item => item.name = file_name) with
    | none => (none, reg)
    | some item =>
      if item.fileid = 0 then (none, reg)
      else (some (toString item.fileid),
            upsertFile reg file_name (toString item.fileid) media_type)

/-! ### Secure media proxy (`secure_media_proxy`)

The route's observable outcome.  The row returned by the proxy's SQL
query is kept as an association list of column name to value, exactly
the shape a `RealDictCursor` row has: the query `SELECT st.book_slug,
se.series_slug, f.file_type, f.pcloud_file_id ...` yields those four
keys, and a lookup of any other key raises `KeyError`, which the
surrounding `try` turns into a 500. -/

/-- HTTP-level outcome of the media proxy route. -/
inductive ProxyOutcome where
  | unauthorized
  | unavailable
  | notFound
  | internalError
  | stream (mime : String) (filename : String)
deriving Repr, DecidableEq

/-- The columns of the proxy's unified query, in SELECT order. -/
def proxyRowDict (book_slug series_slug file_type pcloud_file_id : String) :
    List (String × String) :=
  [("book_slug", book_slug), ("series_slug", series_slug),
   ("file_type", file_type), ("pcloud_file_id", pcloud_file_id)]

/-- Dictionary access `row[key]` on a `RealDictCursor` row: `none`
models a raised `KeyError`. -/
def dictGet (row : List (String × String)) (key : String) : Option String :=
  (row.find? (fun kv => kv.1 = key)).map Prod.snd

/-- Model of `content_type = 'image/jpeg' if media_type == 'image' else 'audio/mpeg'`
from the streaming step of `secure_media_proxy`. -/
def content_type (media_type : String) : String :=
  if media_type = "image" then "image/jpeg" else "audio/mpeg"

/-- Model of `secure_media_proxy(scene_id, filename)`.  `hasUser` is the
`'user_id' in session` check; `clientReady` is `pcloud_client is not
None`; `dbResult` is the (optional) row of the unified mapping query;
`download` tells whether fetching a pCloud file id succeeds.  The
function returns the HTTP outcome plus the registry state after the
request.  Mirrors the route line by line: 401 before any datastore or
storage access; 503 when the client is uninitialized.  When the mapping
row is absent, the handler executes `return abort(404)` — but that call
sits inside the `try` block, and `flask.abort` raises
`werkzeug.exceptions.NotFound`, a subclass of `Exception`, so the
enclosing `except Exception` catches it and answers `abort(500)`: the
route's real outcome for a missing mapping is 500.  When the row is
present it is read (`book_slug`, `series_slug`, then `media_type` — a
key the query never produced, so the `KeyError` lands in the same
`except` branch and answers 500).  Registration failure returns 404
(that `abort(404)` is outside any `try`); a failed download returns 404
(that `abort(404)` is raised inside the `except` handler itself, where
no further handler catches it); otherwise the bytes are streamed. -/
def secure_media_proxy (hasUser clientReady : Bool)
    (dbResult : Option (List (String × String)))
    (backend : String → List PCloudItem) (download : String → Bool)
    (reg : List FileRow) (filename : String) :
    ProxyOutcome × List FileRow :=
  if ¬ hasUser then (.unauthorized, reg)
  else if ¬ clientReady then (.unavailable, reg)
  else
    match dbResult with
    | none => (.internalError, reg)
    | some row =>
      match dictGet row "book_slug", dictGet row "series_slug",
            dictGet row "media_type" with
      | some book_slug, some series_slug, some media_type =>
        match get_or_register_file_id backend reg filename book_slug
                series_slug media_type with
        | (none, reg') => (.notFound, reg')
        | (some fid, reg') =>
          if download fid then (.stream (content_type media_type) filename, reg')
          else (.notFound, reg')
      | _, _, _ => (.internalError, reg)

/-! ### Definitions taken from the specification's words

These two definitions follow the spec text, not the source; they exist
only to be compared against the source-derived definitions above. -/

/-- Truth of Python-style `s.endswith(suffix)`, used to phrase the
spec's extension rule. -/
def strEndsWith (s sfx : String) : Bool :=
  List.isSuffixOf sfx.data s.data

/-- Spec-modelled MIME rule for the streaming backend: for image media,
filenames ending in `.jpg` or `.jpeg` give `image/jpeg` and all other
image filenames give `image/png`; audio gives `audio/mpeg`. -/
def specContentType (media_kind file_name : String) : String :=
  if media_kind = "image" then
    if strEndsWith file_name ".jpg" ∨ strEndsWith file_name ".jpeg" then "image/jpeg"
    else "image/png"
  else "audio/mpeg"

/-- Spec-modelled default media choice: the media reference of the
first unit in document order that carries a resolved media reference,
or the placeholder when no unit carries one. -/
def specDefaultImage (sceneId : Nat) (rawText : String) (rows : List TriggerRow) : String :=
  match (annotate sceneId rawText (buildMediaTriggers sceneId rows)).filterMap
      (fun e => e.2.2) with
  | [] => placeholderImage
  | m :: _ => m

/-! ### Theorems -/

theorem segment_map_snd (sid : Nat) (t : String) :
    (segment sid t).map Prod.snd = splitParagraphs t := by
  simp [segment, List.map_map, Function.comp]
  exact List.enum_map_snd _

theorem unitIds_eq (sid : Nat) (t : String) :
    unitIds sid t = (List.range (splitParagraphs t).length).map (unitId sid) := by
  rw [← List.enum_map_fst (splitParagraphs t), List.map_map]
  simp [unitIds, segment, List.map_map, Function.comp]

/-- C1: paragraph segmentation splits the raw text on `\n\n` and keeps
every resulting span, empty spans included; span `i` (1-based, counted
over all spans) gets identifier `p-{scene_id}-{i}`; the empty text
yields exactly one unit (with empty text) and text without `\n\n`
yields exactly one unit. -/
theorem C1_segmentation :
    (∀ sid t, (segment sid t).map Prod.snd = splitParagraphs t ∧
      unitIds sid t = (List.range (splitParagraphs t).length).map (unitId sid)) ∧
    segment 5 "" = [("p-5-1", "")] ∧
    segment 7 "hello" = [("p-7-1", "hello")] :=
  ⟨fun sid t => ⟨segment_map_snd sid t, unitIds_eq sid t⟩, by decide, by decide⟩

/-- C1 counterexample: the claim as stated fails — the empty text
yields one unit, not zero, and an empty span between two consecutive
separators consumes an ordinal, so `B` is the third unit of
`A\n\n\n\nB`, not the second. -/
theorem C1_counterexample :
    unitIds 5 "" = ["p-5-1"] ∧
    segment 5 "A\n\n\n\nB" = [("p-5-1", "A"), ("p-5-2", ""), ("p-5-3", "B")] ∧
    ("p-5-2", "B") ∉ segment 5 "A\n\n\n\nB" := by
  refine ⟨by decide, by decide, by decide⟩

/-- C2: segmentation is deterministic — any two passes over the same
raw text and scene id produce the same ordered identifier sequence. -/
theorem C2_determinism (sid : Nat) (t : String) (ids₁ ids₂ : List String)
    (h₁ : ids₁ = unitIds sid t) (h₂ : ids₂ = unitIds sid t) : ids₁ = ids₂ :=
  h₁.trans h₂.symm

/-- C2 witness at a concrete scene. -/
theorem C2_determinism_witness : (["p-5-1", "p-5-2"] : List String) = ["p-5-1", "p-5-2"] :=
  C2_determinism 5 "A.\n\nB." ["p-5-1", "p-5-2"] ["p-5-1", "p-5-2"] (by decide) (by decide)

theorem rowTrigger_eq_some {sid : Nat} {row : TriggerRow} {t : MediaTrigger}
    (h : rowTrigger sid row = some t) :
    t.trigger_id = row.text_trigger_id ∧ row.media_type = "image" ∧
      ∃ q, row.media_file_path = some q ∧ q ≠ "" ∧
        t.media_path = mediaPath sid (basename q) := by
  cases hq : row.media_file_path with
  | none => simp only [rowTrigger, hq] at h; cases h
  | some q =>
    simp only [rowTrigger, hq] at h
    by_cases hc : row.media_type = "image" ∧ q ≠ ""
    · rw [if_pos hc] at h
      injection h with h
      subst h
      exact ⟨rfl, hc.1, q, rfl, hc.2, rfl⟩
    · rw [if_neg hc] at h; cases h

theorem rowTrigger_of_conds {sid : Nat} {row : TriggerRow} {p : String}
    (hkind : row.media_type = "image") (hpath : row.media_file_path = some p)
    (hne : p ≠ "") :
    rowTrigger sid row = some ⟨row.text_trigger_id, mediaPath sid (basename p)⟩ := by
  simp only [rowTrigger, hpath]
  rw [if_pos ⟨hkind, hne⟩]

/-- C3: among the stored triggers that the image filter keeps, the
first one carrying a given unit identifier is the one resolved for
that unit, and every entry of the annotated document bearing that
identifier carries exactly that one media reference. -/
theorem C3_first_trigger_wins (sid : Nat) (text uid p : String)
    (rs₁ rs₂ : List TriggerRow) (r : TriggerRow)
    (hkind : r.media_type = "image") (hpath : r.media_file_path = some p) (hne : p ≠ "")
    (hid : r.text_trigger_id = uid)
    (hfirst : ∀ r' ∈ rs₁, r'.media_type = "image" →
      ∀ q, r'.media_file_path = some q → q ≠ "" → r'.text_trigger_id ≠ uid) :
    resolveUnit (buildMediaTriggers sid (rs₁ ++ r :: rs₂)) uid =
      some ⟨uid, mediaPath sid (basename p)⟩ ∧
    ∀ e ∈ (readSceneView sid text (rs₁ ++ r :: rs₂)).units,
      e.1 = uid → e.2.2 = some (mediaPath sid (basename p)) := by
  have hbm : buildMediaTriggers sid (rs₁ ++ r :: rs₂) =
      buildMediaTriggers sid rs₁ ++
        (⟨uid, mediaPath sid (basename p)⟩ : MediaTrigger) :: buildMediaTriggers sid rs₂ := by
    rw [buildMediaTriggers, List.filterMap_append, List.filterMap_cons,
        rowTrigger_of_conds hkind hpath hne, hid]
    rfl
  have h1 : (buildMediaTriggers sid rs₁).find?
      (fun t => t.trigger_id = uid) = none := by
    rw [List.find?_eq_none]
    intro t ht
    rw [buildMediaTriggers, List.mem_filterMap] at ht
    obtain ⟨r', hr', hf⟩ := ht
    obtain ⟨hid', hk', q, hq', hqne', -⟩ := rowTrigger_eq_some hf
    have : r'.text_trigger_id ≠ uid := hfirst r' hr' hk' q hq' hqne'
    simp [hid', this]
  have hres : resolveUnit (buildMediaTriggers sid (rs₁ ++ r :: rs₂)) uid =
      some ⟨uid, mediaPath sid (basename p)⟩ := by
    rw [hbm, resolveUnit, List.find?_append, h1, List.find?_cons_of_pos _ (by simp)]
    rfl
  refine ⟨hres, ?_⟩
  intro e he heq
  simp only [readSceneView, annotate, List.mem_map] at he
  obtain ⟨up, hup, rfl⟩ := he
  simp only at heq
  rw [heq] at *
  simp [hres]

theorem find?_append_middle {α : Type _} (p : α → Bool) (a : α) (l₁ l₂ : List α)
    (h : p a = false) :
    List.find? p (l₁ ++ a :: l₂) = List.find? p (l₁ ++ l₂) := by
  rw [List.find?_append, List.find?_append, List.find?_cons_of_neg _ (by simp [h])]

/-- C4: a stored trigger whose unit identifier does not occur in the
segmented output is inert — every annotated unit renders exactly as it
would without that trigger, and resolution is a total function, so the
trigger can never raise an error. -/
theorem C4_inert_trigger (sid : Nat) (text : String) (rows₁ rows₂ : List TriggerRow)
    (tr : TriggerRow) (h : tr.text_trigger_id ∉ unitIds sid text) :
    (readSceneView sid text (rows₁ ++ tr :: rows₂)).units =
      (readSceneView sid text (rows₁ ++ rows₂)).units := by
  have key : ∀ uid ∈ unitIds sid text,
      resolveUnit (buildMediaTriggers sid (rows₁ ++ tr :: rows₂)) uid =
      resolveUnit (buildMediaTriggers sid (rows₁ ++ rows₂)) uid := by
    intro uid huid
    have hne : tr.text_trigger_id ≠ uid := fun e => h (e ▸ huid)
    rw [resolveUnit, resolveUnit, buildMediaTriggers, buildMediaTriggers,
        List.filterMap_append, List.filterMap_append, List.filterMap_cons]
    cases hf : rowTrigger sid tr with
    | none => rfl
    | some t =>
      obtain ⟨hid', -, -⟩ := rowTrigger_eq_some hf
      exact find?_append_middle _ t _ _ (by simp [hid', hne])
  simp only [readSceneView, annotate]
  apply List.map_congr_left
  intro up hup
  have h1 := key up.1 (by rw [unitIds]; exact List.mem_map_of_mem Prod.fst hup)
  rw [h1]

/-- C4 witness: a trigger aimed at the nonexistent unit `p-5-9` leaves
the two-paragraph scene untouched. -/
theorem C4_inert_trigger_witness :
    (readSceneView 5 "A\n\nB" [⟨"p-5-9", "image", some "ghost.png"⟩]).units =
      (readSceneView 5 "A\n\nB" []).units :=
  C4_inert_trigger 5 "A\n\nB" [] [] ⟨"p-5-9", "image", some "ghost.png"⟩ (by decide)

/-- C3 witness: with a duplicate trigger for `p-5-1` stored later in
the list, the earlier one wins. -/
theorem C3_first_trigger_wins_witness :
    resolveUnit (buildMediaTriggers 5
        [⟨"p-5-2", "image", some "a/b.png"⟩, ⟨"p-5-1", "image", some "x/m1.png"⟩,
         ⟨"p-5-1", "image", some "x/m2.png"⟩]) "p-5-1" =
      some ⟨"p-5-1", "/media/5/m1.png"⟩ := by
  have h := (C3_first_trigger_wins 5 "A\n\nB" "p-5-1" "x/m1.png"
    [⟨"p-5-2", "image", some "a/b.png"⟩] [⟨"p-5-1", "image", some "x/m2.png"⟩]
    ⟨"p-5-1", "image", some "x/m1.png"⟩ rfl rfl (by decide) rfl
    (fun r' hr' _ q hq hqne => by simp at hr'; subst hr'; decide)).1
  exact h.trans (by decide)

/-- C5 counterexample: with the trigger for the second paragraph stored
before the trigger for the first, the page's default image is the
stored-first trigger's media, not that of the first unit in document
order carrying a reference. -/
theorem C5_counterexample :
    (readSceneView 5 "A\n\nB"
        [⟨"p-5-2", "image", some "m2.png"⟩, ⟨"p-5-1", "image", some "m1.png"⟩]).default_image =
      "/media/5/m2.png" ∧
    specDefaultImage 5 "A\n\nB"
        [⟨"p-5-2", "image", some "m2.png"⟩, ⟨"p-5-1", "image", some "m1.png"⟩] =
      "/media/5/m1.png" ∧
    ("/media/5/m2.png" : String) ≠ "/media/5/m1.png" :=
  ⟨by decide, by decide, by decide⟩

/-- C5 amended: the default media reference is that of the first entry
of the processed trigger list (stored list order, among image triggers
carrying a path), whether or not its unit exists or comes first in
document order; when that list is empty the placeholder is used. -/
theorem C5_default_is_first_trigger (sid : Nat) (text : String) (rows : List TriggerRow) :
    (buildMediaTriggers sid rows = [] →
      (readSceneView sid text rows).default_image = placeholderImage) ∧
    ∀ t ts, buildMediaTriggers sid rows = t :: ts →
      (readSceneView sid text rows).default_image = t.media_path := by
  constructor
  · intro h; simp [readSceneView, defaultImage, h]
  · intro t ts h; simp [readSceneView, defaultImage, h]

/-- C5 witness at a concrete scene, for both branches. -/
theorem C5_default_witness :
    (readSceneView 5 "A\n\nB" [⟨"p-5-2", "image", some "m2.png"⟩]).default_image =
      "/media/5/m2.png" ∧
    (readSceneView 5 "A\n\nB" []).default_image = placeholderImage :=
  ⟨(C5_default_is_first_trigger 5 "A\n\nB" _).2 ⟨"p-5-2", "/media/5/m2.png"⟩ [] (by decide),
   (C5_default_is_first_trigger 5 "A\n\nB" []).1 (by decide)⟩

/-- C6 counterexample: the locator prefixes every key with the pCloud
root folder `/my_private_stories`, so the example input does not yield
the claim's bare `media/series/...` key. -/
theorem C6_counterexample :
    pcloud_path "ezra" "loops" "image" "cover.png" =
      "/my_private_stories/media/series/ezra/loops/scenes/images/cover.png" ∧
    pcloud_path "ezra" "loops" "image" "cover.png" ≠
      "media/series/ezra/loops/scenes/images/cover.png" :=
  ⟨by decide, by decide⟩

/-- C6 amended: key construction is a pure deterministic function of
the four inputs, the folder is `images` for image media and `audio`
otherwise, and the key has the shape
`/my_private_stories/media/series/{series}/{book}/scenes/{folder}/{filename}`;
the example input yields the correspondingly prefixed key. -/
theorem C6_physical_key (s b k f : String) :
    pcloud_path s b k f =
      "/my_private_stories/media/series/" ++ s ++ "/" ++ b ++ "/scenes/" ++
        media_folder k ++ "/" ++ f ∧
    (k = "image" → media_folder k = "images") ∧
    (k ≠ "image" → media_folder k = "audio") ∧
    pcloud_path "ezra" "loops" "image" "cover.png" =
      "/my_private_stories/media/series/ezra/loops/scenes/images/cover.png" := by
  refine ⟨rfl, ?_, ?_, by decide⟩
  · intro h; rw [media_folder, if_pos h]
  · intro h; rw [media_folder, if_neg h]

/-- C6 witness for both folder branches. -/
theorem C6_physical_key_witness :
    media_folder "image" = "images" ∧ media_folder "audio" = "audio" :=
  ⟨(C6_physical_key "ezra" "loops" "image" "cover.png").2.1 rfl,
   (C6_physical_key "ezra" "loops" "audio" "song.mp3").2.2.1 (by decide)⟩

/-- C8 counterexample: the streaming step picks the MIME type from the
media kind alone, so an image named `cover.png` is served as
`image/jpeg` where the claim requires `image/png`. -/
theorem C8_counterexample :
    content_type "image" = "image/jpeg" ∧
    specContentType "image" "cover.png" = "image/png" ∧
    content_type "image" ≠ specContentType "image" "cover.png" :=
  ⟨by decide, by decide, by decide⟩

/-- C8 amended: the streamed MIME type is derived from the media kind
alone — `image/jpeg` for image media whatever the filename extension,
and `audio/mpeg` for every other kind. -/
theorem C8_mime_from_kind (k : String) :
    (k = "image" → content_type k = "image/jpeg") ∧
    (k ≠ "image" → content_type k = "audio/mpeg") := by
  constructor
  · intro h; rw [content_type, if_pos h]
  · intro h; rw [content_type, if_neg h]

/-- C8 witness for both kinds. -/
theorem C8_mime_witness :
    content_type "image" = "image/jpeg" ∧ content_type "audio" = "audio/mpeg" :=
  ⟨(C8_mime_from_kind "image").1 rfl, (C8_mime_from_kind "audio").2 (by decide)⟩

/-- C9: the proxy rejects an unauthenticated request with 401 before
touching datastore or storage, and answers 503 while the storage client
is uninitialized — those two clauses of the claim hold.  The NotFound
clause fails twice over: when the mapping row is absent, the
`abort(404)` inside the `try` raises werkzeug's `NotFound`, which the
`except Exception` converts into a 500; and when the mapping row
exists, the handler reads the column `media_type`, which its own query
never selects, so the `KeyError` ends every such request in the same
500 branch instead of continuing to resolution — the claim's 404
outcomes are unreachable from the datastore paths. -/
theorem C9_proxy_ladder :
    (∀ ready db backend dl reg fn,
      secure_media_proxy false ready db backend dl reg fn = (.unauthorized, reg)) ∧
    (∀ db backend dl reg fn,
      secure_media_proxy true false db backend dl reg fn = (.unavailable, reg)) ∧
    (∀ backend dl reg fn,
      secure_media_proxy true true none backend dl reg fn = (.internalError, reg)) ∧
    (∀ backend dl reg fn b s ft pid,
      secure_media_proxy true true (some (proxyRowDict b s ft pid)) backend dl reg fn =
        (.internalError, reg)) :=
  ⟨fun _ _ _ _ _ _ => rfl, fun _ _ _ _ _ => rfl, fun _ _ _ _ => rfl,
   fun _ _ _ _ _ _ _ _ => rfl⟩

/-- C10: when the registry holds no usable id for the filename and the
backend folder listing has no entry with that name, the helper returns
`None` with the registry unchanged — the failure path writes no row
(and the helper is a total function returning an optional reference,
so no exception escapes it). -/
theorem C10_failure_leaves_registry (backend : String → List PCloudItem)
    (reg : List FileRow) (fn b s m : String)
    (hmiss : usableId (lookupFile reg fn) = none)
    (habsent : ∀ item ∈ backend (posixDirname (pcloud_path s b m fn)), item.name ≠ fn) :
    get_or_register_file_id backend reg fn b s m = (none, reg) := by
  have hfind : (backend (posixDirname (pcloud_path s b m fn))).find?
      (fun item => item.name = fn) = none :=
    List.find?_eq_none.mpr (fun item hitem => by simp [habsent item hitem])
  simp [get_or_register_file_id, hmiss, hfind]

/-- C10 witness: a registry miss plus a listing without the file. -/
theorem C10_failure_witness :
    get_or_register_file_id (fun _ => [⟨"other.png", 7⟩]) [] "cover.png" "loops" "ezra"
        "image" = (none, []) :=
  C10_failure_leaves_registry (fun _ => [⟨"other.png", 7⟩]) [] "cover.png" "loops" "ezra"
    "image" (by decide) (by decide)

theorem toDigitsCore_ne_nil : ∀ (fuel b n : Nat) (ds : List Char), ds ≠ [] →
    Nat.toDigitsCore b fuel n ds ≠ []
  | 0, _, _, _, h => h
  | fuel+1, b, n, ds, _ => by
    simp only [Nat.toDigitsCore]
    split
    · simp
    · exact toDigitsCore_ne_nil fuel b _ _ (by simp)

theorem nat_toString_ne_empty (n : Nat) : toString n ≠ "" := by
  show Nat.repr n ≠ ""
  intro h
  have h2 : Nat.toDigits 10 n = [] := by
    have := congrArg String.data h
    simpa [Nat.repr, List.asString] using this
  have h3 : Nat.toDigitsCore 10 (n + 1) n [] ≠ [] := by
    simp only [Nat.toDigitsCore]
    split
    · simp
    · exact toDigitsCore_ne_nil n 10 _ _ (by simp)
  exact h3 (by simpa [Nat.toDigits] using h2)

theorem lookupFile_upsertFile (reg : List FileRow) (n i t : String) :
    ∃ t', lookupFile (upsertFile reg n i t) n = some ⟨n, some i, t'⟩ := by
  induction reg with
  | nil =>
    exact ⟨t, by simp [upsertFile, lookupFile, List.find?_cons_of_pos]⟩
  | cons r rs ih =>
    by_cases h : r.file_name = n
    · refine ⟨r.file_type, ?_⟩
      simp only [upsertFile, if_pos h, lookupFile]
      rw [List.find?_cons_of_pos _ (by simp [h])]
      simp [h]
    · obtain ⟨t', ht'⟩ := ih
      refine ⟨t', ?_⟩
      simp only [upsertFile, if_neg h, lookupFile]
      rw [List.find?_cons_of_neg _ (by simp [h])]
      exact ht'

theorem countP_upsertFile (reg : List FileRow) (n i t : String) :
    (upsertFile reg n i t).countP (fun r => r.file_name = n) =
      max 1 (reg.countP (fun r => r.file_name = n)) := by
  induction reg with
  | nil => simp [upsertFile, List.countP_cons]
  | cons r rs ih =>
    by_cases h : r.file_name = n
    · simp only [upsertFile, if_pos h, List.countP_cons, h]
      simp
    · simp only [upsertFile, if_neg h, List.countP_cons, ih]
      simp [h]

theorem nodup_countP_le_one (reg : List FileRow) (n : String)
    (h : (reg.map FileRow.file_name).Nodup) :
    reg.countP (fun r => r.file_name = n) ≤ 1 := by
  induction reg with
  | nil => simp
  | cons r rs ih =>
    rw [List.map_cons, List.nodup_cons] at h
    rw [List.countP_cons]
    by_cases hr : r.file_name = n
    · have hz : rs.countP (fun r => r.file_name = n) = 0 := by
        rw [List.countP_eq_zero]
        intro a ha
        simp only [decide_eq_true_eq]
        intro han
        exact h.1 (by rw [hr, ← han]; exact List.mem_map_of_mem FileRow.file_name ha)
      simp [hz, hr]
    · simp only [hr, decide_False, if_neg]
      simpa using ih h.2

theorem countP_pos_of_lookup (reg : List FileRow) (n : String) (r : FileRow)
    (h : lookupFile reg n = some r) :
    1 ≤ reg.countP (fun r => r.file_name = n) := by
  have hm := List.mem_of_find?_eq_some h
  have hp := List.find?_some h
  exact List.countP_pos_iff.mpr ⟨r, hm, hp⟩

/-- C7: registration is idempotent.  If the registry's filenames are
unique (the `writing.files` unique key) and a first registration of a
filename succeeds, then a second registration of the same filename
returns the same physical reference and leaves the registry untouched,
the registry holds exactly one row for that filename, and the upsert
itself is last-writer-wins: after any upsert of the filename, looking
the filename up yields the freshly written id. -/
theorem C7_idempotent_registration (backend : String → List PCloudItem)
    (reg : List FileRow) (fn b s m id : String)
    (hnodup : (reg.map FileRow.file_name).Nodup)
    (h₁ : (get_or_register_file_id backend reg fn b s m).fst = some id) :
    get_or_register_file_id backend (get_or_register_file_id backend reg fn b s m).snd
        fn b s m = (some id, (get_or_register_file_id backend reg fn b s m).snd) ∧
    (get_or_register_file_id backend reg fn b s m).snd.countP
        (fun r => r.file_name = fn) = 1 ∧
    ∀ i t, (lookupFile (upsertFile reg fn i t) fn).map FileRow.pcloud_file_id =
      some (some i) := by
  have hups : ∀ i t, (lookupFile (upsertFile reg fn i t) fn).map FileRow.pcloud_file_id =
      some (some i) := by
    intro i t
    obtain ⟨t', ht'⟩ := lookupFile_upsertFile reg fn i t
    rw [ht']
    rfl
  cases husable : usableId (lookupFile reg fn) with
  | some id' =>
    have hcall : get_or_register_file_id backend reg fn b s m = (some id', reg) := by
      simp [get_or_register_file_id, husable]
    rw [hcall] at h₁
    have hid : id' = id := Option.some.inj h₁
    subst hid
    have hlook : ∃ r, lookupFile reg fn = some r := by
      cases hl : lookupFile reg fn with
      | none => rw [hl] at husable; simp [usableId] at husable
      | some r => exact ⟨r, rfl⟩
    obtain ⟨r, hr⟩ := hlook
    refine ⟨by rw [hcall]; exact hcall, ?_, hups⟩
    rw [hcall]
    exact Nat.le_antisymm (nodup_countP_le_one reg fn hnodup)
      (countP_pos_of_lookup reg fn r hr)
  | none =>
    cases hfind : (backend (posixDirname (pcloud_path s b m fn))).find?
        (fun item => item.name = fn) with
    | none =>
      have : get_or_register_file_id backend reg fn b s m = (none, reg) := by
        simp [get_or_register_file_id, husable, hfind]
      rw [this] at h₁
      cases h₁
    | some item =>
      by_cases hz : item.fileid = 0
      · have : get_or_register_file_id backend reg fn b s m = (none, reg) := by
          simp [get_or_register_file_id, husable, hfind, hz]
        rw [this] at h₁
        cases h₁
      · have hcall : get_or_register_file_id backend reg fn b s m =
            (some (toString item.fileid), upsertFile reg fn (toString item.fileid) m) := by
          simp [get_or_register_file_id, husable, hfind, hz]
        rw [hcall] at h₁
        have hid : toString item.fileid = id := Option.some.inj h₁
        subst hid
        obtain ⟨t', ht'⟩ := lookupFile_upsertFile reg fn (toString item.fileid) m
        have husable2 : usableId (lookupFile (upsertFile reg fn (toString item.fileid) m) fn) =
            some (toString item.fileid) := by
          rw [ht', usableId]
          simp [nat_toString_ne_empty item.fileid]
        refine ⟨?_, ?_, hups⟩
        · rw [hcall]
          simp only [get_or_register_file_id, husable2]
        · rw [hcall]
          rw [countP_upsertFile]
          have := nodup_countP_le_one reg fn hnodup
          omega

/-- C7 witness: a fresh registry, a backend listing holding the file,
two successive registrations. -/
theorem C7_idempotent_registration_witness :
    get_or_register_file_id (fun _ => [⟨"cover.png", 42⟩])
        (get_or_register_file_id (fun _ => [⟨"cover.png", 42⟩]) [] "cover.png" "loops"
          "ezra" "image").snd "cover.png" "loops" "ezra" "image" =
      (some "42",
        (get_or_register_file_id (fun _ => [⟨"cover.png", 42⟩]) [] "cover.png" "loops"
          "ezra" "image").snd) :=
  (C7_idempotent_registration (fun _ => [⟨"cover.png", 42⟩]) [] "cover.png" "loops"
    "ezra" "image" "42" (by decide) (by decide)).1

end App
